import Mathlib

/-!
Shallow embedding of `src/jobs/pet-feeder/main.py`: the per-cycle detection
aggregation, metrics, alert state machine and dispatch driver of the
pet-feeder monitoring job.  Confidences are modelled as exact rationals and
the external world (clock hour, model availability, RTSP stream, per-frame
tracking results) as an explicit environment record.
-/

namespace PetFeeder

/-- `FRAMES_TO_PROCESS = 20` (main.py line 28). -/
def FRAMES_TO_PROCESS : Nat := 20

/-- `CLASS_VAZIO = 0` (main.py line 32): the class id of an empty pot. -/
def classVazio : Nat := 0

/-- `CLASS_RACAO = 1` (main.py line 33): the class id of a filled pot. -/
def classRacao : Nat := 1

/-- `0x00ff00`, the default green embed color (main.py line 226). -/
def COLOR_GREEN : Nat := 0x00ff00

/-- `0xffa500`, the yellow/orange embed color (main.py line 230). -/
def COLOR_YELLOW : Nat := 0xffa500

/-- `0xff0000`, the red embed color (main.py lines 236 and 249). -/
def COLOR_RED : Nat := 0xff0000

/-- One entry of the `detections` list built in the frame loop
(main.py lines 138-143): a per-frame, per-track detection record with the
track id, the class id and the confidence. -/
structure Detection where
  id : Int
  cls : Nat
  conf : ℚ
deriving DecidableEq, Repr

/-- What one iteration of the frame loop (main.py lines 118-149) observes:
the read can fail (`ret` false, breaks the loop), the tracking call can
raise (breaks the loop, frame not counted), or the frame is processed and
contributes a list of detections. -/
inductive FrameOutcome where
  | readFail
  | inferFail
  | ok (dets : List Detection)
deriving DecidableEq, Repr

/-- The frame loop of main.py lines 117-149: starting from
`frames_processed = n`, consume outcomes until `FRAMES_TO_PROCESS` frames
are counted or a read/inference failure breaks the loop; return the final
`frames_processed` and the accumulated `detections` list (frame order,
within-frame order preserved). -/
def collect : List FrameOutcome → Nat → Nat × List Detection
  | [], n => (n, [])
  | f :: fs, n =>
    if FRAMES_TO_PROCESS ≤ n then (n, [])
    else
      match f with
      | .readFail => (n, [])
      | .inferFail => (n, [])
      | .ok ds =>
        let r := collect fs (n + 1)
        (r.1, ds ++ r.2)

/-- The class votes of the group `objects[oid]["votes"]` (main.py
lines 159-166): the classes of the detections carrying track id `oid`,
in arrival order. -/
def groupVotes (dets : List Detection) (oid : Int) : List Nat :=
  (dets.filter (fun d => d.id == oid)).map (fun d => d.cls)

/-- The confidences of the group `objects[oid]["confs"]` (main.py
lines 159-166), in arrival order. -/
def groupConfs (dets : List Detection) (oid : Int) : List ℚ :=
  (dets.filter (fun d => d.id == oid)).map (fun d => d.conf)

/-- The distinct track ids of the cycle in ascending order.  main.py groups
into the insertion-ordered dict `objects` and then sorts `final_objects` by
id (line 188); since per-group data does not depend on the dict order, the
aggregate output is indexed by the sorted distinct ids. -/
def sortedTrackIds (dets : List Detection) : List Int :=
  ((dets.map (fun d => d.id)).dedup).insertionSort (· ≤ ·)

/-- The candidate classes `set(data["votes"])` of main.py line 174.
CPython iterates a set of the small class ids 0 and 1 in ascending numeric
order, so the set is modelled as the sorted deduplicated vote list. -/
def candidateClasses (votes : List Nat) : List Nat :=
  (votes.dedup).insertionSort (· ≤ ·)

/-- `max(set(data["votes"]), key=data["votes"].count)` (main.py line 174):
Python max keeps the first candidate and replaces it only on a strictly
larger key, so on a vote tie the candidate earliest in set iteration order
(the smaller class id) wins. -/
def majorityClass (votes : List Nat) : Nat :=
  match candidateClasses votes with
  | [] => 0
  | c :: cs => cs.foldl (fun best x => if votes.count best < votes.count x then x else best) c

/-- One entry of `final_objects` (main.py line 177). -/
structure AggObject where
  id : Int
  cls : Nat
  conf : ℚ
deriving DecidableEq, Repr

/-- `sum(confs) / len(confs)` (main.py line 175).  Every group is non-empty
in the code; on `[]` the rational convention `x / 0 = 0` applies. -/
def listMean (l : List ℚ) : ℚ := l.sum / (l.length : ℚ)

/-- `final_objects` after the sort of main.py line 188: one aggregated
object per distinct track id, majority-voted class and mean confidence. -/
def finalObjects (dets : List Detection) : List AggObject :=
  (sortedTrackIds dets).map (fun oid =>
    { id := oid, cls := majorityClass (groupVotes dets oid),
      conf := listMean (groupConfs dets oid) })

/-- `total_conf` (main.py lines 169, 179): per group, the sum of that
group confidence list is accumulated. -/
def total_conf (dets : List Detection) : ℚ :=
  ((sortedTrackIds dets).map (fun oid => (groupConfs dets oid).sum)).sum

/-- `count_conf` (main.py lines 170, 180): per group, the length of that
group confidence list is accumulated. -/
def count_conf (dets : List Detection) : Nat :=
  ((sortedTrackIds dets).map (fun oid => (groupConfs dets oid).length)).sum

/-- `total_potes = len(final_objects)` (main.py line 183). -/
def total_potes (dets : List Detection) : Nat := (finalObjects dets).length

/-- `empty_potes` (main.py line 190): the aggregated objects voted empty. -/
def empty_potes (dets : List Detection) : List AggObject :=
  (finalObjects dets).filter (fun o => o.cls == classVazio)

/-- `num_empty = len(empty_potes)` (main.py line 191). -/
def num_empty (dets : List Detection) : Nat := (empty_potes dets).length

/-- `pct_empty` (main.py line 192). -/
def pct_empty (dets : List Detection) : ℚ :=
  if 0 < total_potes dets then ((num_empty dets : ℚ) / (total_potes dets : ℚ)) * 100 else 0

/-- `avg_confidence = total_conf / count_conf if count_conf > 0 else 0`
(main.py line 193). -/
def avg_confidence (dets : List Detection) : ℚ :=
  if 0 < count_conf dets then total_conf dets / (count_conf dets : ℚ) else 0

/-- `empty_ids` (main.py line 195), kept as track ids (the code stringifies
them only for display/join). -/
def empty_ids (dets : List Detection) : List Int :=
  (empty_potes dets).map (fun o => o.id)

/-- The alert events of section 4.3 of the spec; in main.py these are the
formatted strings appended to `alerts` (lines 232, 238, 244, 250). -/
inductive AlertEvent where
  | yellowWarning (emptyCount : Nat)
  | redAlert (emptyCount : Nat)
  | recovery
  | healthWarning (avgConf : ℚ)
deriving DecidableEq, Repr

/-- The outputs of the alert block (main.py lines 218-251): the `alerts`
list, the embed `color` and the `should_alert` flag. -/
structure AlertOutcome where
  alerts : List AlertEvent
  color : Nat
  shouldAlert : Bool
deriving DecidableEq, Repr

/-- The threshold rules of main.py lines 229-245: yellow at exactly 4 empty,
red at 5 or more, both edge-triggered against `last_num_empty`; otherwise a
recovery event when `last_num_empty >= 4`.  Returns the events and the
color chosen by this block. -/
def thresholdStep (numEmpty : Nat) (lastNumEmpty : Int) : List AlertEvent × Nat :=
  if numEmpty = 4 then
    (if (numEmpty : Int) ≠ lastNumEmpty then [AlertEvent.yellowWarning numEmpty] else [],
     COLOR_YELLOW)
  else if 5 ≤ numEmpty then
    (if (numEmpty : Int) ≠ lastNumEmpty then [AlertEvent.redAlert numEmpty] else [],
     COLOR_RED)
  else
    (if 4 ≤ lastNumEmpty then [AlertEvent.recovery] else [], COLOR_GREEN)

/-- The whole alert block (main.py lines 220-251): threshold rules, then the
independent health check, which appends its event, forces the color red and
sets `should_alert`.  In the code `should_alert` is set exactly at the four
append sites, so it equals the non-emptiness of `alerts`. -/
def alertLogic (numEmpty : Nat) (avgConfidence : ℚ) (lastNumEmpty : Int) : AlertOutcome :=
  let t := thresholdStep numEmpty lastNumEmpty
  if avgConfidence < 3/4 then
    { alerts := t.1 ++ [AlertEvent.healthWarning avgConfidence],
      color := COLOR_RED, shouldAlert := true }
  else
    { alerts := t.1, color := t.2, shouldAlert := !t.1.isEmpty }

/-- The on-disk state file: absent, present but not valid JSON, or a parsed
JSON object whose `last_num_empty` key may be absent. -/
inductive StateFile where
  | missing
  | unparsable
  | parsed (lastNumEmpty : Option Int)
deriving DecidableEq, Repr

/-- `load_state` (main.py lines 36-43) followed by the key lookup: the
function returns the empty dict on a missing or unparsable file, so the
`last_num_empty` entry is `none` in those cases. -/
def load_state : StateFile → Option Int
  | .missing => none
  | .unparsable => none
  | .parsed v => v

/-- Python 3 `round`: round half to even, on our exact rationals. -/
def pyRound (q : ℚ) : Int :=
  let f := q.floor
  let r := q - (f : ℚ)
  if r < 1/2 then f
  else if 1/2 < r then f + 1
  else if f % 2 = 0 then f else f + 1

/-- `round(q, d)`: round half to even at `d` decimal places. -/
def roundTo (q : ℚ) (d : Nat) : ℚ :=
  ((pyRound (q * (10 : ℚ) ^ d) : ℚ)) / (10 : ℚ) ^ d

/-- The telemetry record of main.py lines 208-214 (the `empty_ids` field is
the list that the code joins with commas for the wire). -/
structure Telemetry where
  potes_total : Nat
  potes_empty : Nat
  pct_empty : ℚ
  model_health : ℚ
  empty_ids : List Int
deriving DecidableEq, Repr

/-- The Discord embed of main.py lines 254-263, keeping the numeric values
underlying the formatted field strings; the wall-clock timestamp field is
environment output and not modelled. -/
structure Embed where
  color : Nat
  statusEmpty : Nat
  statusTotal : Nat
  statusPct : ℚ
  emptyIdsField : List Int
  health : ℚ
deriving DecidableEq, Repr

/-- One call to `send_discord` (main.py lines 98, 110, 275, 276): the two
plain failure messages, or an alert message carrying the joined event list,
the embed and whether a snapshot image was attached. -/
inductive Notification where
  | criticalModelMissing
  | warnStreamUnavailable
  | alert (content : List AlertEvent) (embed : Embed) (hasImage : Bool)
deriving DecidableEq, Repr

/-- The external facts one invocation of `run_inference_cycle` observes:
the clock hour, whether the weights file exists, whether `YOLO(MODEL_PATH)`
succeeds, whether the RTSP stream opens, and the per-frame outcomes. -/
structure Env where
  hour : Nat
  modelFileExists : Bool
  modelLoadOk : Bool
  streamOpens : Bool
  frames : List FrameOutcome
deriving DecidableEq, Repr

/-- The observable effects of one invocation: the `send_discord` calls in
order, the telemetry record sent (if any), and the `last_num_empty` value
written by `save_state` (if any). -/
structure CycleResult where
  discordSends : List Notification
  telemetrySent : Option Telemetry
  stateWrite : Option Int
deriving DecidableEq, Repr

/-- An early `return`: the given notifications were sent, no telemetry, no
state write. -/
def abortResult (sends : List Notification) : CycleResult :=
  { discordSends := sends, telemetrySent := none, stateWrite := none }

/-- `run_inference_cycle` (main.py lines 84-283): operating-hours gate,
model and stream availability checks, frame loop, zero-frame abort,
aggregation and metrics, telemetry send, alert block, the two `send_discord`
calls when `should_alert`, and the unconditional state save.  A processed
cycle always has an annotated frame (every counted frame stores one), so
the alert image is always attached. -/
def run_inference_cycle (env : Env) (file : StateFile) : CycleResult :=
  if env.hour < 6 ∨ 21 ≤ env.hour then abortResult []
  else if env.modelFileExists = false then abortResult [Notification.criticalModelMissing]
  else if env.modelLoadOk = false then abortResult []
  else if env.streamOpens = false then abortResult [Notification.warnStreamUnavailable]
  else
    let c := collect env.frames 0
    if c.1 = 0 then abortResult []
    else
      let dets := c.2
      let telem : Telemetry :=
        { potes_total := total_potes dets, potes_empty := num_empty dets,
          pct_empty := roundTo (pct_empty dets) 1,
          model_health := roundTo (avg_confidence dets) 3,
          empty_ids := empty_ids dets }
      let lastNumEmpty := (load_state file).getD (-1)
      let outcome := alertLogic (num_empty dets) (avg_confidence dets) lastNumEmpty
      let embed : Embed :=
        { color := outcome.color, statusEmpty := num_empty dets,
          statusTotal := total_potes dets, statusPct := roundTo (pct_empty dets) 0,
          emptyIdsField := empty_ids dets, health := roundTo (avg_confidence dets) 2 }
      let sends :=
        if outcome.shouldAlert then
          [Notification.alert outcome.alerts embed true,
           Notification.alert outcome.alerts embed true]
        else []
      { discordSends := sends, telemetrySent := some telem,
        stateWrite := some ((num_empty dets : Int)) }

/-! ### Helper lemmas: grouping by track id partitions the detection list -/

theorem sum_map_zero {M : Type} [AddCommMonoid M] (ids : List Int) :
    (ids.map (fun _ => (0 : M))).sum = 0 := by
  induction ids with
  | nil => rfl
  | cons i rest ih => simp [ih]

theorem length_eq_sum_ones {α : Type} (l : List α) :
    l.length = (l.map (fun _ => (1 : ℕ))).sum := by
  induction l with
  | nil => rfl
  | cons a t ih =>
    simp only [List.length_cons, List.map_cons, List.sum_cons, ih]
    omega

theorem sum_map_if_mem {M : Type} [AddCommMonoid M] (x : M) (g : Int → M) :
    ∀ (ids : List Int) (a : Int), ids.Nodup → a ∈ ids →
      (ids.map (fun i => if i = a then x + g i else g i)).sum = x + (ids.map g).sum := by
  intro ids
  induction ids with
  | nil => intro a _ ha; cases ha
  | cons i rest ih =>
    intro a hnd ha
    rcases List.nodup_cons.mp hnd with ⟨hi, hnd2⟩
    by_cases hia : i = a
    · subst hia
      have hrest : ∀ j ∈ rest, (if j = i then x + g j else g j) = g j := by
        intro j hj
        rw [if_neg]
        intro hji; exact hi (hji ▸ hj)
      rw [List.map_cons, List.sum_cons, List.map_congr_left hrest, if_pos rfl, add_assoc,
        List.map_cons, List.sum_cons]
    · have ha2 : a ∈ rest := by
        cases List.mem_cons.mp ha with
        | inl h => exact absurd h.symm hia
        | inr h => exact h
      rw [List.map_cons, List.sum_cons, if_neg hia, ih a hnd2 ha2, add_left_comm,
        List.map_cons, List.sum_cons]

theorem sum_groups {M : Type} [AddCommMonoid M] (f : Detection → M) :
    ∀ (l : List Detection) (ids : List Int), ids.Nodup → (∀ d ∈ l, d.id ∈ ids) →
      (ids.map (fun i => ((l.filter (fun d => d.id == i)).map f).sum)).sum = (l.map f).sum := by
  intro l
  induction l with
  | nil =>
    intro ids _ _
    simp only [List.filter_nil, List.map_nil, List.sum_nil]
    exact sum_map_zero ids
  | cons d l2 ih =>
    intro ids hnd hcov
    have hd : d.id ∈ ids := hcov d (List.mem_cons_self d l2)
    have hcov2 : ∀ e ∈ l2, e.id ∈ ids := fun e he => hcov e (List.mem_cons_of_mem d he)
    have hstep : ∀ i ∈ ids,
        (((d :: l2).filter (fun e => e.id == i)).map f).sum =
          (if i = d.id then f d + ((l2.filter (fun e => e.id == i)).map f).sum
           else ((l2.filter (fun e => e.id == i)).map f).sum) := by
      intro i _
      by_cases h : i = d.id
      · rw [if_pos h, List.filter_cons_of_pos (by simp [h])]
        simp
      · rw [if_neg h, List.filter_cons_of_neg]
        simp only [beq_iff_eq]
        exact fun hh => h hh.symm
    rw [List.map_congr_left hstep,
      sum_map_if_mem (f d) (fun i => ((l2.filter (fun e => e.id == i)).map f).sum) ids d.id hnd hd,
      ih ids hnd hcov2]
    simp

theorem sortedTrackIds_nodup (dets : List Detection) : (sortedTrackIds dets).Nodup := by
  unfold sortedTrackIds
  exact ((List.perm_insertionSort _ _).nodup_iff).mpr (List.nodup_dedup _)

theorem mem_sortedTrackIds {dets : List Detection} {d : Detection} (h : d ∈ dets) :
    d.id ∈ sortedTrackIds dets := by
  unfold sortedTrackIds
  exact ((List.perm_insertionSort _ _).mem_iff).mpr
    (List.mem_dedup.mpr (List.mem_map_of_mem _ h))

/-- The per-group accumulation of `total_conf` sums every confidence in the
cycle exactly once. -/
theorem total_conf_eq (dets : List Detection) :
    total_conf dets = (dets.map (fun d => d.conf)).sum := by
  unfold total_conf groupConfs
  exact sum_groups (fun d => d.conf) dets (sortedTrackIds dets) (sortedTrackIds_nodup dets)
    (fun d hd => mem_sortedTrackIds hd)

/-- The per-group accumulation of `count_conf` counts every detection in
the cycle exactly once. -/
theorem count_conf_eq (dets : List Detection) : count_conf dets = dets.length := by
  unfold count_conf groupConfs
  have h1 : ∀ i ∈ sortedTrackIds dets,
      ((dets.filter (fun d => d.id == i)).map (fun d => d.conf)).length
        = ((dets.filter (fun d => d.id == i)).map (fun _ => (1 : ℕ))).sum := by
    intro i _
    rw [List.length_map, ← List.length_map (dets.filter (fun d => d.id == i)) (fun _ => (1 : ℕ))]
    rw [List.length_map]
    exact length_eq_sum_ones _
  rw [List.map_congr_left h1,
    sum_groups (fun _ => (1 : ℕ)) dets (sortedTrackIds dets) (sortedTrackIds_nodup dets)
      (fun d hd => mem_sortedTrackIds hd)]
  exact (length_eq_sum_ones dets).symm

/-! ### C3: what `avg_confidence` actually averages -/

/-- Definition following the words of the spec (section 4.2): the mean of
the per-object confidences, each aggregated object weighted equally. -/
def objectMeanConfidence (dets : List Detection) : ℚ :=
  if 0 < total_potes dets then
    (((finalObjects dets).map (fun o => o.conf)).sum) / (total_potes dets : ℚ)
  else 0

/-- C3 counterexample: two detections of track 1 at confidence 1 and one
detection of track 2 at confidence 2/5.  The per-object confidences are 1
and 2/5, whose equal-weight mean is 7/10, but the code computes the mean
over the three detections, 4/5, weighting track 1 twice. -/
theorem C3_counterexample :
    avg_confidence [⟨1, 0, 1⟩, ⟨1, 0, 1⟩, ⟨2, 0, 2/5⟩] = 4/5 ∧
    objectMeanConfidence [⟨1, 0, 1⟩, ⟨1, 0, 1⟩, ⟨2, 0, 2/5⟩] = 7/10 ∧
    avg_confidence [⟨1, 0, 1⟩, ⟨1, 0, 1⟩, ⟨2, 0, 2/5⟩] ≠
      objectMeanConfidence [⟨1, 0, 1⟩, ⟨1, 0, 1⟩, ⟨2, 0, 2/5⟩] := by
  have h1 : avg_confidence [⟨1, 0, 1⟩, ⟨1, 0, 1⟩, ⟨2, 0, 2/5⟩] = 4/5 := by
    norm_num [avg_confidence, total_conf, count_conf, sortedTrackIds, groupConfs,
      List.dedup, List.insertionSort, List.orderedInsert, List.pwFilter]
  have h2 : objectMeanConfidence [⟨1, 0, 1⟩, ⟨1, 0, 1⟩, ⟨2, 0, 2/5⟩] = 7/10 := by
    norm_num [objectMeanConfidence, total_potes, finalObjects, sortedTrackIds, groupConfs,
      groupVotes, majorityClass, candidateClasses, listMean,
      List.dedup, List.insertionSort, List.orderedInsert, List.pwFilter]
  refine ⟨h1, h2, ?_⟩
  rw [h1, h2]
  norm_num

/-- C3 (amended): avg_confidence is the arithmetic mean of all frame-level
detection confidences — each track weighted by how many detections
supported it — and 0 when the cycle has no detections. -/
theorem C3_avg_confidence_detection_mean (dets : List Detection) :
    avg_confidence dets =
      if dets.length = 0 then 0
      else (dets.map (fun d => d.conf)).sum / (dets.length : ℚ) := by
  unfold avg_confidence
  rw [total_conf_eq, count_conf_eq]
  by_cases h : dets.length = 0
  · rw [if_neg (by omega), if_pos h]
  · rw [if_pos (by omega), if_neg h]

/-! ### C6, C7, C8, C10: the alert state machine -/

/-- C6: threshold events are edge-triggered.  A YellowWarning is emitted
iff the empty count is exactly 4 and differs from the persisted count; a
RedAlert is emitted iff the empty count is at least 5 and differs from the
persisted count; and on a cycle whose empty count equals the persisted
count (the second of two consecutive identical cycles) every emitted event
is the health event — no threshold event repeats. -/
theorem C6_threshold_edge_triggered (n : Nat) (ac ac2 : ℚ) (last : Int) :
    (AlertEvent.yellowWarning 4 ∈ (alertLogic n ac last).alerts ↔
      (n = 4 ∧ (n : Int) ≠ last)) ∧
    (∀ m : Nat, AlertEvent.redAlert m ∈ (alertLogic n ac last).alerts ↔
      (m = n ∧ 5 ≤ n ∧ (n : Int) ≠ last)) ∧
    (∀ e ∈ (alertLogic n ac2 (n : Int)).alerts, e = AlertEvent.healthWarning ac2) := by
  refine ⟨?_, ?_, ?_⟩
  · simp only [alertLogic, thresholdStep]
    split_ifs <;> simp_all
  · intro m
    simp only [alertLogic, thresholdStep]
    split_ifs <;> simp_all
  · intro e he
    simp only [alertLogic, thresholdStep] at he
    split_ifs at he <;> simp_all <;> omega

/-- C6 witness: with no prior state a count of 4 emits the YellowWarning
and a count of 7 the RedAlert; with an unchanged count of 4 the
YellowWarning is suppressed. -/
theorem C6_witness :
    AlertEvent.yellowWarning 4 ∈ (alertLogic 4 1 (-1)).alerts ∧
    AlertEvent.redAlert 7 ∈ (alertLogic 7 1 (-1)).alerts ∧
    AlertEvent.yellowWarning 4 ∉ (alertLogic 4 1 ((4 : Nat) : Int)).alerts := by
  refine ⟨(C6_threshold_edge_triggered 4 1 1 (-1)).1.mpr ⟨rfl, by decide⟩,
    ((C6_threshold_edge_triggered 7 1 1 (-1)).2.1 7).mpr ⟨rfl, by decide, by decide⟩,
    fun hmem => ?_⟩
  have := (C6_threshold_edge_triggered 4 1 1 ((4 : Nat) : Int)).2.2 _ hmem
  simp at this

/-- C7: a Recovery event is emitted by the alert block iff the persisted
count is at least 4 and the current empty count is below 4. -/
theorem C7_recovery_iff (n : Nat) (ac : ℚ) (last : Int) :
    AlertEvent.recovery ∈ (alertLogic n ac last).alerts ↔ (4 ≤ last ∧ n < 4) := by
  simp only [alertLogic, thresholdStep]
  split_ifs <;> simp_all <;> omega

/-- C7 witness: with a persisted count of 5 and a current count of 2,
Recovery fires. -/
theorem C7_witness : AlertEvent.recovery ∈ (alertLogic 2 1 5).alerts :=
  (C7_recovery_iff 2 1 5).mpr (by decide)

/-- C8: the health event fires on every cycle with average confidence
below 3/4 — independently of the persisted count and the threshold rules —
and forces the embed color to red; it can co-fire with a threshold event,
as the concrete cycle with empty count 5 and confidence 1/2 shows. -/
theorem C8_health_warning (n : Nat) (ac : ℚ) (last : Int) :
    (AlertEvent.healthWarning ac ∈ (alertLogic n ac last).alerts ↔ ac < 3/4) ∧
    (ac < 3/4 → (alertLogic n ac last).color = COLOR_RED) ∧
    (alertLogic 5 (1/2) (-1)).alerts =
      [AlertEvent.redAlert 5, AlertEvent.healthWarning (1/2)] := by
  refine ⟨?_, ?_, ?_⟩
  · simp only [alertLogic, thresholdStep]
    split_ifs <;> simp_all
  · intro h
    simp only [alertLogic, thresholdStep]
    split_ifs <;> simp_all
  · norm_num [alertLogic, thresholdStep]

/-- C8 witness: at confidence 1/2 and empty count 3 the health event is in
the alert list and the color is red. -/
theorem C8_witness :
    AlertEvent.healthWarning (1/2) ∈ (alertLogic 3 (1/2) (-1)).alerts ∧
    (alertLogic 3 (1/2) (-1)).color = COLOR_RED :=
  ⟨(C8_health_warning 3 (1/2) (-1)).1.mpr (by norm_num),
   (C8_health_warning 3 (1/2) (-1)).2.1 (by norm_num)⟩

/-- C10: a missing or unparsable state file loads as the empty record, so
the `last_num_empty` lookup defaults to the sentinel -1; against that
sentinel an empty count of 4 emits its YellowWarning, any count of 5 or
more emits its RedAlert, and Recovery can never fire. -/
theorem C10_sentinel_default :
    (load_state StateFile.missing).getD (-1) = -1 ∧
    (load_state StateFile.unparsable).getD (-1) = -1 ∧
    (∀ ac : ℚ, AlertEvent.yellowWarning 4 ∈ (alertLogic 4 ac (-1)).alerts) ∧
    (∀ n : Nat, ∀ ac : ℚ, 5 ≤ n → AlertEvent.redAlert n ∈ (alertLogic n ac (-1)).alerts) ∧
    (∀ n : Nat, ∀ ac : ℚ, AlertEvent.recovery ∉ (alertLogic n ac (-1)).alerts) := by
  refine ⟨rfl, rfl, ?_, ?_, ?_⟩
  · intro ac
    simp only [alertLogic, thresholdStep]
    split_ifs <;> simp_all
  · intro n ac h5
    simp only [alertLogic, thresholdStep]
    split_ifs <;> simp_all
  · intro n ac
    simp only [alertLogic, thresholdStep]
    split_ifs <;> simp_all

/-- C10 witness: against the sentinel, count 4 warns yellow, count 5
alerts red and a low count fires no Recovery. -/
theorem C10_witness :
    AlertEvent.yellowWarning 4 ∈ (alertLogic 4 1 (-1)).alerts ∧
    AlertEvent.redAlert 5 ∈ (alertLogic 5 1 (-1)).alerts ∧
    AlertEvent.recovery ∉ (alertLogic 1 1 (-1)).alerts :=
  ⟨C10_sentinel_default.2.2.1 1,
   C10_sentinel_default.2.2.2.1 5 1 (by decide),
   C10_sentinel_default.2.2.2.2 1 1⟩

/-! ### C5: aggregation is invariant under frame reordering -/

theorem candidateClasses_perm {v1 v2 : List Nat} (h : v1.Perm v2) :
    candidateClasses v1 = candidateClasses v2 := by
  unfold candidateClasses
  refine List.eq_of_perm_of_sorted ?_ (List.sorted_insertionSort _ _)
    (List.sorted_insertionSort _ _)
  exact (List.perm_insertionSort _ _).trans (h.dedup.trans (List.perm_insertionSort _ _).symm)

theorem majorityClass_perm {v1 v2 : List Nat} (h : v1.Perm v2) :
    majorityClass v1 = majorityClass v2 := by
  have hfun : (fun (best x : Nat) => if v1.count best < v1.count x then x else best)
      = (fun (best x : Nat) => if v2.count best < v2.count x then x else best) := by
    funext b x
    rw [h.count_eq, h.count_eq]
  unfold majorityClass
  rw [candidateClasses_perm h, hfun]

theorem sortedTrackIds_perm {l1 l2 : List Detection} (h : l1.Perm l2) :
    sortedTrackIds l1 = sortedTrackIds l2 := by
  unfold sortedTrackIds
  refine List.eq_of_perm_of_sorted ?_ (List.sorted_insertionSort _ _)
    (List.sorted_insertionSort _ _)
  exact (List.perm_insertionSort _ _).trans
    ((h.map _).dedup.trans (List.perm_insertionSort _ _).symm)

/-- C5: for any two detection sequences that are permutations of each
other — the same multiset of per-track detections in a different arrival
order — aggregation yields exactly the same objects: same per-track
majority vote and same per-track mean confidence. -/
theorem C5_aggregation_perm_invariant (l1 l2 : List Detection) (h : l1.Perm l2) :
    finalObjects l1 = finalObjects l2 := by
  unfold finalObjects
  rw [sortedTrackIds_perm h]
  refine List.map_congr_left ?_
  intro oid _
  have hg : (l1.filter (fun d => d.id == oid)).Perm (l2.filter (fun d => d.id == oid)) :=
    h.filter _
  have hv : (groupVotes l1 oid).Perm (groupVotes l2 oid) := hg.map _
  have hc : (groupConfs l1 oid).Perm (groupConfs l2 oid) := hg.map _
  rw [majorityClass_perm hv]
  unfold listMean
  rw [hc.sum_eq, hc.length_eq]

/-- C5 witness: swapping the first two detections (different tracks and
classes) leaves the aggregated output unchanged. -/
theorem C5_witness :
    finalObjects [⟨1, 0, 1/2⟩, ⟨1, 1, 1/4⟩, ⟨2, 1, 1/3⟩] =
      finalObjects [⟨1, 1, 1/4⟩, ⟨1, 0, 1/2⟩, ⟨2, 1, 1/3⟩] :=
  C5_aggregation_perm_invariant _ _ (List.Perm.swap _ _ _)

/-! ### C2: which cycles write the persisted state -/

/-- C2 counterexample: a cycle inside operating hours that processes one
frame with no detections has zero aggregated objects, yet the code still
reaches the alert block and overwrites the persisted count with 0. -/
theorem C2_counterexample :
    total_potes (collect [FrameOutcome.ok []] 0).2 = 0 ∧
    (run_inference_cycle
        { hour := 12, modelFileExists := true, modelLoadOk := true, streamOpens := true,
          frames := [FrameOutcome.ok []] } StateFile.missing).stateWrite = some 0 := by
  exact ⟨rfl, rfl⟩

/-- C2 (amended): the persisted `last_num_empty` is overwritten — with the
current empty count — if and only if the cycle passes the operating-hours,
model-file, model-load and stream checks and counts at least one frame.
There is no totalObjects-is-zero guard: a cycle with frames but zero
aggregated objects still reaches the alert block and writes 0.  All
earlier abort paths leave the state untouched. -/
theorem C2_state_write_iff (env : Env) (file : StateFile) :
    (run_inference_cycle env file).stateWrite =
      if 6 ≤ env.hour ∧ env.hour < 21 ∧ env.modelFileExists = true ∧
         env.modelLoadOk = true ∧ env.streamOpens = true ∧ 0 < (collect env.frames 0).1
      then some ((num_empty (collect env.frames 0).2 : Int))
      else none := by
  simp only [run_inference_cycle, abortResult]
  split_ifs <;>
    first
      | rfl
      | simp_all
      | omega

/-! ### C9: how the two ModelUnavailable paths behave -/

/-- C9 counterexample: the weights file exists but the model constructor
raises (main.py lines 101-105); the cycle aborts with only a local log —
no notification is sent — though the claim requires every ModelUnavailable
failure to be reported as a critical alert via the notification sink. -/
theorem C9_counterexample :
    run_inference_cycle
        { hour := 12, modelFileExists := true, modelLoadOk := false, streamOpens := true,
          frames := [FrameOutcome.ok []] } StateFile.missing =
      { discordSends := [], telemetrySent := none, stateWrite := none } := by
  rfl

/-- C9 (amended): when the weights file is missing the failure is reported
as a critical alert through the notification sink and the cycle aborts
before aggregation with the state unchanged; when the file exists but the
model constructor raises, the cycle also aborts before aggregation with
the state unchanged, but silently — no notification is sent. -/
theorem C9_model_unavailable (env : Env) (file : StateFile)
    (h6 : 6 ≤ env.hour) (h21 : env.hour < 21) :
    (env.modelFileExists = false →
      run_inference_cycle env file =
        { discordSends := [Notification.criticalModelMissing], telemetrySent := none,
          stateWrite := none }) ∧
    (env.modelFileExists = true → env.modelLoadOk = false →
      run_inference_cycle env file =
        { discordSends := [], telemetrySent := none, stateWrite := none }) := by
  constructor
  · intro hm
    unfold run_inference_cycle
    rw [if_neg (by omega), if_pos hm]
    rfl
  · intro hm hl
    unfold run_inference_cycle
    rw [if_neg (by omega), if_neg (by simp [hm]), if_pos hl]
    rfl

/-- C9 witness: with the weights file missing, exactly the critical alert
is sent and nothing else happens. -/
theorem C9_witness :
    run_inference_cycle
        { hour := 12, modelFileExists := false, modelLoadOk := true, streamOpens := true,
          frames := [] } StateFile.missing =
      { discordSends := [Notification.criticalModelMissing], telemetrySent := none,
        stateWrite := none } :=
  (C9_model_unavailable _ StateFile.missing (by decide) (by decide)).1 rfl

/-! ### C1: the dispatcher sends the alert twice -/

/-- An in-hours cycle with one frame and one empty-pot detection at
confidence 1/2: the health event qualifies the cycle for notification. -/
def envDupSend : Env :=
  { hour := 12, modelFileExists := true, modelLoadOk := true, streamOpens := true,
    frames := [FrameOutcome.ok [⟨1, classVazio, 1/2⟩]] }

/-- C1 (code defect): on a qualifying cycle — the alert-event list is
non-empty — the dispatcher calls send_discord twice with the same payload
(main.py lines 275 and 276), not once: the notification list has length 2
and its first and last entries coincide. -/
theorem C1_duplicate_send :
    (run_inference_cycle envDupSend StateFile.missing).discordSends.length = 2 ∧
    (run_inference_cycle envDupSend StateFile.missing).discordSends.head? =
      (run_inference_cycle envDupSend StateFile.missing).discordSends.getLast? ∧
    (alertLogic 1 (1/2) (-1)).alerts ≠ [] := by
  refine ⟨?_, ?_, ?_⟩
  · norm_num [envDupSend, run_inference_cycle, collect, FRAMES_TO_PROCESS, alertLogic,
      thresholdStep, avg_confidence, total_conf, count_conf, num_empty, empty_potes,
      finalObjects, sortedTrackIds, groupVotes, groupConfs, majorityClass, candidateClasses,
      listMean, classVazio, load_state,
      List.dedup, List.insertionSort, List.orderedInsert]
  · norm_num [envDupSend, run_inference_cycle, collect, FRAMES_TO_PROCESS, alertLogic,
      thresholdStep, avg_confidence, total_conf, count_conf, num_empty, empty_potes,
      finalObjects, sortedTrackIds, groupVotes, groupConfs, majorityClass, candidateClasses,
      listMean, classVazio, load_state,
      List.dedup, List.insertionSort, List.orderedInsert]
  · norm_num [alertLogic, thresholdStep]

/-! ### C4: the majority-vote tie-break -/

/-- Definition following the words of the spec (section 4.1): among the
classes tied for the vote lead, prefer the class of the most recent
detection of the group, failing that the lowest-valued class id. -/
def specMajorityClass (votes : List Nat) : Nat :=
  let maxCount := (votes.map (fun c => votes.count c)).foldr max 0
  let leaders := (candidateClasses votes).filter (fun c => votes.count c == maxCount)
  match votes.getLast? with
  | none => 0
  | some recent => if leaders.contains recent then recent else leaders.headD 0

/-- C4 (code defect): a single track seen twice, first as class 0 (VAZIO)
and most recently as class 1 (RACAO), has a 1-1 vote tie.  The spec
tie-break picks the most recent class, 1; the code picks 0, because
max over the set iterates the class ids in ascending order and keeps the
first on a tie, ignoring recency. -/
theorem C4_tie_break_divergence :
    majorityClass [0, 1] = classVazio ∧
    specMajorityClass [0, 1] = classRacao ∧
    (finalObjects [⟨7, classVazio, 1/2⟩, ⟨7, classRacao, 1/2⟩]).map (fun o => o.cls) =
      [classVazio] := by
  refine ⟨by decide, by decide, by decide⟩

end PetFeeder
